import Mathlib

/-!
Verification development for the geospatial utilities of thelper
(thelper/data/geo/utils.py).

Shallow embedding over exact rational arithmetic: a GDAL geotransform is six
rationals, the affine library's forward map and its inverse are explicit
formulas, Python asserts/raises become Except, and Python truthiness tests on
optional numbers and sequences are modelled explicitly.  Collaborator geometry
libraries (shapely/ogr/osr) are modelled by abstract operation records, as the
spec treats them as external collaborators.

Definitions come first, theorems after.
-/

namespace ThelperGeo

/-- GDAL-style 6-parameter geotransform `(orig_x, res_x, skew_x, orig_y, skew_y, res_y)`,
in the order unpacked by `affine.Affine.from_gdal` inside `get_pxcoord`/`get_geocoord`. -/
structure GeoTransform where
  origX : ℚ
  resX : ℚ
  skewX : ℚ
  origY : ℚ
  skewY : ℚ
  resY : ℚ
  deriving DecidableEq

/-- Determinant of the 2x2 linear part of the affine map; the affine library
raises `TransformNotInvertibleError` when it is zero. -/
def GeoTransform.det (gt : GeoTransform) : ℚ :=
  gt.resX * gt.resY - gt.skewX * gt.skewY

/-- `get_geocoord` (utils.py:51-54): forward affine map from pixel `(x, y)` to geo
space, i.e. `affine.Affine.from_gdal(*geotransform) * (x, y)`. -/
def get_geocoord (gt : GeoTransform) (x y : ℚ) : ℚ × ℚ :=
  (gt.resX * x + gt.skewX * y + gt.origX, gt.skewY * x + gt.resY * y + gt.origY)

/-- `get_pxcoord` (utils.py:46-48): inverse affine map
`~affine.Affine.from_gdal(*geotransform) * (x, y)`; `none` models the
`TransformNotInvertibleError` the affine library raises on determinant zero.
The inverse coefficients mirror `affine.Affine.__invert__`. -/
def get_pxcoord (gt : GeoTransform) (x y : ℚ) : Option (ℚ × ℚ) :=
  if gt.det = 0 then none
  else
    let idet := 1 / gt.det
    let ra := gt.resY * idet
    let rb := -gt.skewX * idet
    let rd := -gt.skewY * idet
    let re := gt.resX * idet
    some (ra * x + rb * y + (-gt.origX * ra - gt.origY * rb),
          rd * x + re * y + (-gt.origX * rd - gt.origY * re))

/-- `get_geoextent` (utils.py:57-62): geo-space corners of the pixel window, in
the fixed order `[tl, bl, br, tr]`. -/
def get_geoextent (gt : GeoTransform) (x y cols rows : ℚ) : List (ℚ × ℚ) :=
  [get_geocoord gt x y,
   get_geocoord gt x (y + rows),
   get_geocoord gt (x + cols) (y + rows),
   get_geocoord gt (x + cols) y]

/-- Abstract shapely geometry, reduced to the data `get_feature_bbox` and
`get_feature_roi` read from it: axis-aligned bounds `(minx, miny, maxx, maxy)`
(shapely `geom.bounds`) and the centroid (shapely `geom.centroid`). -/
structure Geom where
  minx : ℚ
  miny : ℚ
  maxx : ℚ
  maxy : ℚ
  cx : ℚ
  cy : ℚ
  deriving DecidableEq

/-- Python truthiness of the `offsets` argument of `get_feature_bbox`: `None`
and an empty sequence are falsy, a nonempty sequence is truthy. -/
def pyTruthyList (offsets : Option (List ℚ)) : Bool :=
  match offsets with
  | none => false
  | some l => !l.isEmpty

/-- `get_feature_bbox` (utils.py:244-256).  `if offsets and len(offsets) != 2`
raises `AssertionError`; with truthy offsets the box is centred on the
centroid, otherwise the `bounds` corners are used; the returned pair is
`(componentwise min, componentwise max)`. -/
def get_feature_bbox (geom : Geom) (offsets : Option (List ℚ)) :
    Except String ((ℚ × ℚ) × (ℚ × ℚ)) :=
  if pyTruthyList offsets && (offsets.getD []).length != 2 then
    Except.error "offset param must be 2d"
  else
    let tlbr :=
      if pyTruthyList offsets then
        let l := offsets.getD []
        let dx := l.getD 0 0
        let dy := l.getD 1 0
        ((geom.cx - dx, geom.cy + dy), (geom.cx + dx, geom.cy - dy))
      else
        ((geom.minx, geom.maxy), (geom.maxx, geom.miny))
    Except.ok ((min tlbr.1.1 tlbr.2.1, min tlbr.1.2 tlbr.2.2),
               (max tlbr.1.1 tlbr.2.1, max tlbr.1.2 tlbr.2.2))

/-- Python truthiness of the optional integer `crop_img_size`: `None` and `0`
are falsy. -/
def pyTruthyInt (o : Option ℤ) : Bool :=
  match o with
  | none => false
  | some n => n != 0

/-- Python truthiness of the optional number `crop_real_size`: `None` and `0`
are falsy. -/
def pyTruthyRat (o : Option ℚ) : Bool :=
  match o with
  | none => false
  | some q => q != 0

/-- Result of `get_feature_roi`: the rectangular roi polygon (vertex order
tl, tr, br, bl), the snapped geo-space top-left/bottom-right corners, and the
crop width/height in pixels.  The intermediate pixel-space corners
`tlPx`/`brPx` computed by the source (utils.py:280,283,286) are also recorded. -/
structure RoiResult where
  roi : List (ℚ × ℚ)
  roiTl : ℚ × ℚ
  roiBr : ℚ × ℚ
  tlPx : ℤ × ℤ
  brPx : ℤ × ℤ
  cropWidth : ℤ
  cropHeight : ℤ
  deriving DecidableEq

/-- `get_feature_roi` (utils.py:259-292).  `bufferFn` stands for the shapely
`geom.buffer` collaborator operation (applied only when `roi_buffer` is not
None, line 264-265).  The offset geotransform has zero origin (line 266); the
branch structure follows the Python truthiness of `crop_img_size` and
`crop_real_size` (lines 267-275, 281-288). -/
def get_feature_roi (bufferFn : Geom → ℚ → Geom) (geom : Geom) (px_size skew : ℚ × ℚ)
    (roi_buffer : Option ℚ) (crop_img_size : Option ℤ) (crop_real_size : Option ℚ) :
    Except String RoiResult :=
  if crop_img_size.isSome && crop_real_size.isSome then
    Except.error "should provide at most one type of crop resolution"
  else
    let geom2 := match roi_buffer with
      | some r => bufferFn geom r
      | none => geom
    let ogt : GeoTransform := GeoTransform.mk 0 px_size.1 skew.1 0 skew.2 px_size.2
    let bboxE :=
      if pyTruthyInt crop_img_size || pyTruthyRat crop_real_size then
        if pyTruthyInt crop_img_size then
          let crop_size := crop_img_size.getD 0
          let xy := get_geocoord ogt (crop_size : ℚ) (crop_size : ℚ)
          get_feature_bbox geom2 (some [|xy.1 / 2|, |xy.2 / 2|])
        else if pyTruthyRat crop_real_size then
          let off := crop_real_size.getD 0 / 2
          get_feature_bbox geom2 (some [off, off])
        else
          Except.error "ValueError"
      else
        get_feature_bbox geom2 none
    match bboxE with
    | Except.error e => Except.error e
    | Except.ok (roi_tl, roi_br) =>
      match get_pxcoord ogt roi_tl.1 roi_tl.2 with
      | none => Except.error "transform not invertible"
      | some tlReal =>
        let tlPx : ℤ × ℤ := (⌊tlReal.1⌋, ⌊tlReal.2⌋)
        let brE : Except String ((ℤ × ℤ) × ℤ × ℤ) :=
          if pyTruthyInt crop_img_size then
            let cw := crop_img_size.getD 0
            Except.ok ((tlPx.1 + cw, tlPx.2 + cw), cw, cw)
          else
            match get_pxcoord ogt roi_br.1 roi_br.2 with
            | none => Except.error "transform not invertible"
            | some brReal =>
              let brPx : ℤ × ℤ := (⌈brReal.1⌉, ⌈brReal.2⌉)
              Except.ok (brPx, max (brPx.1 - tlPx.1) 1, max (brPx.2 - tlPx.2) 1)
        match brE with
        | Except.error e => Except.error e
        | Except.ok (brPx, cw, ch) =>
          let roiTl2 := get_geocoord ogt (tlPx.1 : ℚ) (tlPx.2 : ℚ)
          let roiBr2 := get_geocoord ogt (brPx.1 : ℚ) (brPx.2 : ℚ)
          Except.ok (RoiResult.mk
            [roiTl2, (roiBr2.1, roiTl2.2), roiBr2, (roiTl2.1, roiBr2.2)]
            roiTl2 roiBr2 tlPx brPx cw ch)

/-- The band data-type validation loop of `parse_rasters` (utils.py:139-145):
`raster_datatype` starts as `None`; for each band, `if not raster_datatype`
(Python truthiness: both `None` and the GDAL code 0 = GDT_Unknown are falsy)
re-initialises it to the current band's type, then
`assert raster_datatype == curr_band.DataType`. -/
def bandTypeFold : Option ℤ → List ℤ → Except String (Option ℤ)
  | rd, [] => Except.ok rd
  | rd, t :: ts =>
    let rd2 := if pyTruthyInt rd then rd else some t
    if rd2 = some t then bandTypeFold rd2 ts
    else Except.error "expected identical data types in all bands"

/-- The per-raster band data-type validation of `parse_rasters`, run on the
list of GDAL data-type codes of the raster's bands, returning the final
`raster_datatype` on success. -/
def parse_rasters_band_types (bandTypes : List ℤ) : Except String (Option ℤ) :=
  bandTypeFold none bandTypes

/-- A value of the `properties` mapping of a CRS descriptor: GeoJSON property
values are ints (EPSG codes) or strings (names). -/
inductive CrsVal where
  | int (n : ℤ)
  | str (s : String)
  deriving DecidableEq

/-- The CRS descriptor read by `parse_coordinate_system` (utils.py:76-78):
`crs_body.get("type")` and `list(crs_body.get("properties").values())`. -/
structure CrsBody where
  type : Option String
  props : List CrsVal

/-- The osr importer collaborators (`crs.ImportFromEPSG` etc., utils.py:82-95):
each takes the positional property values and returns an OGRERR code
(0 = success). -/
structure CrsImporters where
  fromEPSG : List CrsVal → ℤ
  fromEPSGA : List CrsVal → ℤ
  fromERM : List CrsVal → ℤ
  fromESRI : List CrsVal → ℤ
  fromUSGS : List CrsVal → ℤ
  fromPCI : List CrsVal → ℤ

/-- Python `str.upper()` on ASCII strings, as used on the CRS `type` field. -/
def pyUpper (s : String) : String :=
  String.mk (s.data.map Char.toUpper)

/-- Whether a char list starts with the given pattern. -/
def listStartsWith : List Char → List Char → Bool
  | [], _ => true
  | _ :: _, [] => false
  | p :: ps, c :: cs => p == c && listStartsWith ps cs

/-- Python `pattern in s` substring containment, over the char lists. -/
def containsSeq (pat : List Char) : List Char → Bool
  | [] => listStartsWith pat []
  | c :: cs => listStartsWith pat (c :: cs) || containsSeq pat cs

/-- Python `s.split(sep)` for a single-char separator, over char lists. -/
def splitOnChar (sep : Char) : List Char → List (List Char)
  | [] => [[]]
  | c :: cs =>
    if c == sep then [] :: splitOnChar sep cs
    else
      match splitOnChar sep cs with
      | [] => [[c]]
      | p :: ps => (c :: p) :: ps

/-- Digit-sequence parse used by `pyInt?`. -/
def digitsToNat? (ds : List Char) : Option ℕ :=
  if ds.isEmpty then none
  else if ds.all Char.isDigit then
    some (ds.foldl (fun n c => 10 * n + (c.toNat - 48)) 0)
  else none

/-- Python `int(s)` on an ASCII integer literal (optional leading minus);
`none` models the `ValueError` it raises otherwise. -/
def pyInt? (s : String) : Option ℤ :=
  match s.data with
  | '-' :: rest => (digitsToNat? rest).map (fun n => -(n : ℤ))
  | l => (digitsToNat? l).map (fun n => (n : ℤ))

/-- The uppercased CRS type string, `crs_body.get("type", "").upper()`
(utils.py:77). -/
def crsTypeOf (body : CrsBody) : String :=
  pyUpper (body.type.getD "")

/-- The importer-dispatch part of `parse_coordinate_system` (utils.py:80-95):
returns the OGRERR value left in `err` (initially -1), or the uncaught Python
exception (TypeError/ValueError) raised inside the `NAME` compatibility hack
condition. -/
def crsImportErr (imp : CrsImporters) (body : CrsBody) : Except String ℤ :=
  let t := crsTypeOf body
  if t = "EPSG" then Except.ok (imp.fromEPSG body.props)
  else if t = "EPSGA" then Except.ok (imp.fromEPSGA body.props)
  else if t = "ERM" then Except.ok (imp.fromERM body.props)
  else if t = "ESRI" then Except.ok (imp.fromESRI body.props)
  else if t = "USGS" then Except.ok (imp.fromUSGS body.props)
  else if t = "PCI" then Except.ok (imp.fromPCI body.props)
  else if t = "NAME" then
    match body.props with
    | [CrsVal.str s] =>
      if containsSeq ":EPSG:".data s.data then
        match pyInt? (String.mk ((splitOnChar ':' s.data).getLastD [])) with
        | some code => Except.ok (imp.fromEPSG [CrsVal.int code])
        | none => Except.error "ValueError: invalid literal for int"
      else Except.ok (-1)
    | [CrsVal.int _] => Except.error "TypeError: argument of type int is not iterable"
    | _ => Except.ok (-1)
  else Except.ok (-1)

/-- `parse_coordinate_system` (utils.py:74-97): dispatch on the CRS type, then
`assert not err` (truthiness: passes exactly when the importer returned 0). -/
def parse_coordinate_system (imp : CrsImporters) (body : CrsBody) : Except String Unit :=
  match crsImportErr imp body with
  | Except.error e => Except.error e
  | Except.ok err =>
    if err = 0 then Except.ok ()
    else Except.error "could not identify CRS/SRS type"

/-- The recognized CRS descriptor kinds of `parse_coordinate_system`: one of
the six importer type tags (after uppercasing), or the `NAME` compatibility
hack with a single string property containing the `:EPSG:` token. -/
def crsRecognized (body : CrsBody) : Prop :=
  crsTypeOf body = "EPSG" ∨ crsTypeOf body = "EPSGA" ∨ crsTypeOf body = "ERM" ∨
  crsTypeOf body = "ESRI" ∨ crsTypeOf body = "USGS" ∨ crsTypeOf body = "PCI" ∨
  (crsTypeOf body = "NAME" ∧
    ∃ s, body.props = [CrsVal.str s] ∧ containsSeq ":EPSG:".data s.data = true)

/-- Concrete importers used by witnesses: EPSG import succeeds exactly on the
single property value 4326, everything else reports error 5. -/
def demoImporters : CrsImporters :=
  CrsImporters.mk (fun props => if props = [CrsVal.int 4326] then 0 else 5)
    (fun _ => 5) (fun _ => 5) (fun _ => 5) (fun _ => 5) (fun _ => 5)

/-- Concrete `get_feature_roi` output used by the fixed-pixel-crop witness:
geometry with all-zero bounds/centroid, pixel size `(1, -1)`, no skew,
`crop_img_size = 64`. -/
def demoRoiFixed : RoiResult :=
  RoiResult.mk [(-32, -32), (32, -32), (32, -96), (-32, -96)]
    (-32, -32) (32, -96) (-32, 32) (32, 96) 64 64

/-- Concrete `get_feature_roi` output used by the clamp witness: a zero-area
geometry (a point at `(5, 5)`), pixel size `(1, -1)`, no skew, no crop. -/
def demoRoiClamp : RoiResult :=
  RoiResult.mk [(5, 5), (5, 5), (5, 5), (5, 5)] (5, 5) (5, 5) (5, -5) (5, -5) 1 1

/-- Raw GeoJSON geometry dict of a feature, as read by `parse_geojson`
(utils.py:205-228): a `type` tag with the coordinate payload.  Polygon
coordinates are a list of rings of (x, y) points; MultiPolygon coordinates are
a list of polygons. -/
inductive RawGeom where
  | polygon (coords : List (List (ℚ × ℚ)))
  | multiPolygon (coords : List (List (List (ℚ × ℚ))))
  | other (t : String)

/-- The `type` string of a raw geometry dict. -/
def RawGeom.typeStr : RawGeom → String
  | RawGeom.polygon _ => "Polygon"
  | RawGeom.multiPolygon _ => "MultiPolygon"
  | RawGeom.other t => t

/-- The value stored under a feature's `geometry` key: the raw GeoJSON dict on
input, or a parsed shapely geometry object after the in-place mutation of
`parse_geojson` (utils.py:218, 227, 235). -/
inductive GeomVal (G : Type) where
  | raw (rg : RawGeom)
  | obj (g : G)

/-- A GeoJSON feature dict, reduced to the two keys `parse_geojson` writes:
`geometry` and `type`.  `type` may be absent on input. -/
structure Feature (G : Type) where
  geometry : GeomVal G
  type : Option String

/-- The shapely/ogr collaborator operations used by `parse_geojson`:
`shapely.geometry.Polygon`, `shapely.geometry.shape`, `is_valid`,
`intersects`, `contains`, `intersection` and the `.type` attribute.  `G` is
the opaque type of shapely geometry objects. -/
structure GeomOps (G : Type) where
  polygonOf : List (ℚ × ℚ) → G
  shapeOf : List (List (List (ℚ × ℚ))) → G
  isValid : G → Bool
  intersects : G → G → Bool
  contains : G → G → Bool
  intersection : G → G → G
  typeOf : G → String

/-- The optional `srs_transform` reprojection (utils.py:214-217, 223-226):
the ogr wkb-transform-wkt round trip is an opaque geometry map, applied only
when a target SRS differing from the origin SRS was given. -/
def applyTransform {G : Type} (tr : Option (G → G)) (g : G) : G :=
  match tr with
  | none => g
  | some f => f g

/-- The per-feature parse/reproject phase of `parse_geojson`
(utils.py:205-228): dispatch on the raw geometry's type string; a Polygon must
have exactly one ring with at least 4 points; a MultiPolygon must be valid;
anything else fails the whole call.  The feature's `geometry` entry is
replaced by the parsed (possibly reprojected) object and its `type` entry is
overwritten with the geometry type string.  Returns the mutated feature and
the parsed geometry. -/
def parseFeature {G : Type} (ops : GeomOps G) (tr : Option (G → G)) (f : Feature G) :
    Except String (Feature G × G) :=
  match f.geometry with
  | GeomVal.raw (RawGeom.polygon coords) =>
    if coords.length = 1 then
      if 4 ≤ (coords.headD []).length then
        let poly := applyTransform tr (ops.polygonOf (coords.headD []))
        Except.ok (Feature.mk (GeomVal.obj poly) (some "Polygon"), poly)
      else Except.error "unexpected poly coord format"
    else Except.error "unexpected coords embedding"
  | GeomVal.raw (RawGeom.multiPolygon coords) =>
    let multipoly := ops.shapeOf coords
    if ops.isValid multipoly then
      let multipoly2 := applyTransform tr multipoly
      Except.ok (Feature.mk (GeomVal.obj multipoly2) (some "MultiPolygon"), multipoly2)
    else Except.error "found invalid input multipolygon in geojson"
  | GeomVal.raw (RawGeom.other t) =>
    Except.error ("unhandled raw geometry type: " ++ t)
  | GeomVal.obj _ => Except.error "unhandled raw geometry type"

/-- The ROI keep condition of `parse_geojson` (utils.py:232-233):
`(allow_outlying and roi.intersects(geom)) or
(not allow_outlying and roi.contains(geom))`. -/
def keepPred {G : Type} (ops : GeomOps G) (roi : G) (allow : Bool) (g : G) : Bool :=
  (allow && ops.intersects roi g) || (!allow && ops.contains roi g)

/-- One iteration of the feature loop of `parse_geojson` (utils.py:204-239):
parse/reproject, then the ROI filter with optional clipping.  Returns the
feature's post-loop state together with whether it was appended to
`kept_features`. -/
def processFeature {G : Type} (ops : GeomOps G) (tr : Option (G → G)) (roi : Option G)
    (allow clip : Bool) (f : Feature G) : Except String (Feature G × Bool) :=
  match parseFeature ops tr f with
  | Except.error e => Except.error e
  | Except.ok (f2, g) =>
    match roi with
    | none => Except.ok (f2, true)
    | some R =>
      if keepPred ops R allow g then
        if clip then
          let g2 := ops.intersection R g
          if ops.typeOf g2 = "Polygon" ∨ ops.typeOf g2 = "MultiPolygon" then
            Except.ok (Feature.mk (GeomVal.obj g2) (some (ops.typeOf g2)), true)
          else Except.error "unhandled intersection geometry type"
        else Except.ok (Feature.mk f2.geometry (some (ops.typeOf g)), true)
      else Except.ok (f2, false)

/-- The feature loop of `parse_geojson`, in input order; any per-feature
failure aborts the whole call. -/
def processAll {G : Type} (ops : GeomOps G) (tr : Option (G → G)) (roi : Option G)
    (allow clip : Bool) : List (Feature G) → Except String (List (Feature G × Bool))
  | [] => Except.ok []
  | f :: fs =>
    match processFeature ops tr roi allow clip f with
    | Except.error e => Except.error e
    | Except.ok r =>
      match processAll ops tr roi allow clip fs with
      | Except.error e => Except.error e
      | Except.ok rs => Except.ok (r :: rs)

/-- `parse_geojson` (utils.py:185-241).  The Python function mutates the
feature dicts of the input list in place and returns only `kept_features`;
the embedding returns the pair (post-state of the input feature list,
kept_features).  CRS resolution of the collection (lines 190-202) is modelled
by the optional reprojection map `tr`. -/
def parse_geojson {G : Type} (ops : GeomOps G) (tr : Option (G → G)) (roi : Option G)
    (allow clip : Bool) (features : List (Feature G)) :
    Except String (List (Feature G) × List (Feature G)) :=
  match processAll ops tr roi allow clip features with
  | Except.error e => Except.error e
  | Except.ok flagged =>
    Except.ok (flagged.map Prod.fst, (flagged.filter (fun x => x.2)).map Prod.fst)

/-- Collaborator instance used by witnesses: every geometry is the unit
object; the ROI intersects but does not contain it (a feature straddling the
ROI boundary). -/
def demoOpsStraddle : GeomOps Unit :=
  GeomOps.mk (fun _ => ()) (fun _ => ()) (fun _ => true) (fun _ _ => true)
    (fun _ _ => false) (fun _ _ => ()) (fun _ => "Polygon")

/-- Collaborator instance used by witnesses: the ROI neither intersects nor
contains any geometry (a feature entirely outside the ROI). -/
def demoOpsOutside : GeomOps Unit :=
  GeomOps.mk (fun _ => ()) (fun _ => ()) (fun _ => true) (fun _ _ => false)
    (fun _ _ => false) (fun _ _ => ()) (fun _ => "Polygon")

/-- A concrete raw Polygon feature with one 4-point ring. -/
def demoFeature : Feature Unit :=
  Feature.mk (GeomVal.raw (RawGeom.polygon [[(0, 0), (1, 0), (1, 1), (0, 1)]])) none

/-- The post-parse state of `demoFeature`: geometry replaced by the parsed
object, type overwritten. -/
def demoParsedFeature : Feature Unit :=
  Feature.mk (GeomVal.obj ()) (some "Polygon")

end ThelperGeo

namespace ThelperGeo

/-- C2 counterexample: the geotransform `(0, 1, 1, 0, 1, 1)` has nonzero pixel
resolutions `res_x = res_y = 1`, yet the inverse map does not exist (the skew
terms make the determinant zero), so the round trip at pixel `(0, 0)` returns
`none` instead of `some (0, 0)`: nonzero resolutions alone do not make the
transform invertible. -/
theorem get_pxcoord_roundtrip_res_only_counterexample :
    (GeoTransform.mk 0 1 1 0 1 1).resX ≠ 0 ∧
    (GeoTransform.mk 0 1 1 0 1 1).resY ≠ 0 ∧
    get_pxcoord (GeoTransform.mk 0 1 1 0 1 1)
      (get_geocoord (GeoTransform.mk 0 1 1 0 1 1) 0 0).1
      (get_geocoord (GeoTransform.mk 0 1 1 0 1 1) 0 0).2 = none := by
  refine ⟨by norm_num, by norm_num, ?_⟩
  norm_num [get_pxcoord, get_geocoord, GeoTransform.det]

/-- C2 (amended): for every geotransform whose determinant
`res_x * res_y - skew_x * skew_y` is nonzero (invertible transform) and every
pixel coordinate `(c, r)`, applying the forward map `get_geocoord` and then the
inverse map `get_pxcoord` returns `(c, r)` exactly, over exact arithmetic. -/
theorem get_pxcoord_get_geocoord_roundtrip (gt : GeoTransform) (h : gt.det ≠ 0) (c r : ℚ) :
    get_pxcoord gt (get_geocoord gt c r).1 (get_geocoord gt c r).2 = some (c, r) := by
  have h2 : gt.resX * gt.resY - gt.skewX * gt.skewY ≠ 0 := h
  simp only [get_pxcoord, get_geocoord, if_neg h]
  refine congrArg some (Prod.ext ?_ ?_)
  · show _ = c
    field_simp [GeoTransform.det]
    ring
  · show _ = r
    field_simp [GeoTransform.det]
    ring

/-- Witness for the amended C2 round trip at the concrete geotransform
`(500000, 10, 0, 4000000, 0, -10)` and pixel `(3, 7)`. -/
theorem get_pxcoord_get_geocoord_roundtrip_witness :
    (GeoTransform.mk 500000 10 0 4000000 0 (-10)).det ≠ 0 ∧
    get_pxcoord (GeoTransform.mk 500000 10 0 4000000 0 (-10))
      (get_geocoord (GeoTransform.mk 500000 10 0 4000000 0 (-10)) 3 7).1
      (get_geocoord (GeoTransform.mk 500000 10 0 4000000 0 (-10)) 3 7).2 = some (3, 7) :=
  ⟨by norm_num [GeoTransform.det],
   get_pxcoord_get_geocoord_roundtrip (GeoTransform.mk 500000 10 0 4000000 0 (-10))
     (by norm_num [GeoTransform.det]) 3 7⟩

/-- C3: `get_geoextent` returns exactly the four geo-space corners obtained by
applying the forward affine map to the pixel corners `(x, y)`, `(x, y+rows)`,
`(x+cols, y+rows)`, `(x+cols, y)`, in the fixed order [top-left, bottom-left,
bottom-right, top-right]; and on the concrete geotransform
`(500000, 10, 0, 4000000, 0, -10)` pixel `(0,0)` maps to `(500000, 4000000)`,
pixel `(100,100)` maps to `(501000, 3999000)`, and the extent of the 100x100
window at the origin is the stated 4-corner list. -/
theorem get_geoextent_corner_order :
    (∀ gt x y cols rows, get_geoextent gt x y cols rows =
      [(gt.resX * x + gt.skewX * y + gt.origX,
        gt.skewY * x + gt.resY * y + gt.origY),
       (gt.resX * x + gt.skewX * (y + rows) + gt.origX,
        gt.skewY * x + gt.resY * (y + rows) + gt.origY),
       (gt.resX * (x + cols) + gt.skewX * (y + rows) + gt.origX,
        gt.skewY * (x + cols) + gt.resY * (y + rows) + gt.origY),
       (gt.resX * (x + cols) + gt.skewX * y + gt.origX,
        gt.skewY * (x + cols) + gt.resY * y + gt.origY)]) ∧
    get_geocoord (GeoTransform.mk 500000 10 0 4000000 0 (-10)) 0 0 = (500000, 4000000) ∧
    get_geocoord (GeoTransform.mk 500000 10 0 4000000 0 (-10)) 100 100 = (501000, 3999000) ∧
    get_geoextent (GeoTransform.mk 500000 10 0 4000000 0 (-10)) 0 0 100 100 =
      [(500000, 4000000), (500000, 3999000), (501000, 3999000), (501000, 4000000)] := by
  refine ⟨fun gt x y cols rows => rfl, ?_, ?_, ?_⟩ <;>
    norm_num [get_geoextent, get_geocoord, Prod.ext_iff]

/-- C8 counterexample: offsets given as a length-0 sequence do NOT produce the
invalid-offset error.  An empty sequence is falsy in Python, so
`if offsets and len(offsets) != 2` does not fire and the function silently
falls back to the natural bounding box. -/
theorem get_feature_bbox_empty_offsets_counterexample :
    (some ([] : List ℚ)) ≠ none ∧ ([] : List ℚ).length ≠ 2 ∧
    get_feature_bbox (Geom.mk 0 0 2 2 1 1) (some []) = Except.ok ((0, 0), (2, 2)) := by
  refine ⟨by simp, by simp, ?_⟩
  norm_num [get_feature_bbox, pyTruthyList, Prod.ext_iff]

/-- C8 (amended): `get_feature_bbox` fails with the invalid-offset error for
every NONEMPTY offsets sequence whose length is not 2 (a length-0 offsets
sequence is falsy in Python and is treated as absent, yielding the natural
bounding box); with a 2-dimensional offsets `[dx, dy]` it returns the box of
half-widths `(|dx|, |dy|)` centred on the geometry's centroid; with no offsets
(and sorted bounds, a shapely invariant) it returns the axis-aligned bounding
box corners `((minx, miny), (maxx, maxy))`. -/
theorem get_feature_bbox_spec :
    (∀ (g : Geom) (l : List ℚ), l ≠ [] → l.length ≠ 2 →
      get_feature_bbox g (some l) = Except.error "offset param must be 2d") ∧
    (∀ (g : Geom) (dx dy : ℚ),
      get_feature_bbox g (some [dx, dy]) =
        Except.ok ((g.cx - |dx|, g.cy - |dy|), (g.cx + |dx|, g.cy + |dy|))) ∧
    (∀ (g : Geom), g.minx ≤ g.maxx → g.miny ≤ g.maxy →
      get_feature_bbox g none = Except.ok ((g.minx, g.miny), (g.maxx, g.maxy))) ∧
    (∀ (g : Geom), g.minx ≤ g.maxx → g.miny ≤ g.maxy →
      get_feature_bbox g (some []) = Except.ok ((g.minx, g.miny), (g.maxx, g.maxy))) := by
  refine ⟨?_, ?_, ?_, ?_⟩
  · intro g l hne hlen
    have : l.isEmpty = false := by
      cases l with
      | nil => exact absurd rfl hne
      | cons a t => rfl
    simp [get_feature_bbox, pyTruthyList, this, hlen]
  · intro g dx dy
    have hxy : ∀ (c d : ℚ), min (c - d) (c + d) = c - |d| ∧ max (c - d) (c + d) = c + |d| := by
      intro c d
      rcases le_total 0 d with hd | hd
      · rw [abs_of_nonneg hd]
        constructor
        · exact min_eq_left (by linarith)
        · exact max_eq_right (by linarith)
      · rw [abs_of_nonpos hd]
        constructor
        · rw [min_eq_right (by linarith : c + d ≤ c - d)]
          ring
        · rw [max_eq_left (by linarith : c + d ≤ c - d)]
          ring
    have h1 := hxy g.cx dx
    have h2 : ∀ (c d : ℚ), min (c + d) (c - d) = c - |d| ∧ max (c + d) (c - d) = c + |d| := by
      intro c d
      rw [min_comm, max_comm]
      exact hxy c d
    have h3 := h2 g.cy dy
    simp only [get_feature_bbox, pyTruthyList, List.isEmpty, Option.getD, List.getD,
      List.length, Bool.not_false, Bool.and_eq_true]
    norm_num [h1.1, h1.2, h3.1, h3.2]
  · intro g hx hy
    simp [get_feature_bbox, pyTruthyList, min_eq_left hx, max_eq_right hx,
      min_eq_right hy, max_eq_left hy]
  · intro g hx hy
    simp [get_feature_bbox, pyTruthyList, min_eq_left hx, max_eq_right hx,
      min_eq_right hy, max_eq_left hy]

/-- Witness for the amended C8 at concrete inputs: a nonempty 3-element offsets
errors, and offsets `[3, -4]` yield the centroid-centred box of half-widths
`(3, 4)` around centroid `(1, 1)`. -/
theorem get_feature_bbox_spec_witness :
    get_feature_bbox (Geom.mk 0 0 2 2 1 1) (some [1, 2, 3]) =
      Except.error "offset param must be 2d" ∧
    get_feature_bbox (Geom.mk 0 0 2 2 1 1) (some [3, -4]) =
      Except.ok ((1 - |(3 : ℚ)|, 1 - |(-4 : ℚ)|), (1 + |(3 : ℚ)|, 1 + |(-4 : ℚ)|)) :=
  ⟨get_feature_bbox_spec.1 (Geom.mk 0 0 2 2 1 1) [1, 2, 3] (by simp) (by simp),
   get_feature_bbox_spec.2.1 (Geom.mk 0 0 2 2 1 1) 3 (-4)⟩

/-- C9: whenever `get_feature_bbox` succeeds, the returned corner pair is
componentwise sorted: the first point's x and y are each less than or equal to
the second point's, regardless of centroid position, offset signs or bound
ordering (the result is built with componentwise min/max). -/
theorem get_feature_bbox_sorted (geom : Geom) (offsets : Option (List ℚ))
    (p q : ℚ × ℚ) (h : get_feature_bbox geom offsets = Except.ok (p, q)) :
    p.1 ≤ q.1 ∧ p.2 ≤ q.2 := by
  unfold get_feature_bbox at h
  split at h
  · exact absurd h (by simp)
  · rw [Except.ok.injEq, Prod.mk.injEq] at h
    obtain ⟨hp, hq⟩ := h
    subst hp
    subst hq
    exact ⟨min_le_max, min_le_max⟩

/-- Witness for C9 at a concrete geometry and no offsets. -/
theorem get_feature_bbox_sorted_witness :
    ((0 : ℚ), (0 : ℚ)).1 ≤ ((2 : ℚ), (2 : ℚ)).1 ∧ ((0 : ℚ), (0 : ℚ)).2 ≤ ((2 : ℚ), (2 : ℚ)).2 :=
  get_feature_bbox_sorted (Geom.mk 0 0 2 2 1 1) none (0, 0) (2, 2)
    (by norm_num [get_feature_bbox, pyTruthyList, Prod.ext_iff])

/-- C1: whenever `get_feature_roi` is called with a truthy fixed pixel crop
size (`crop_img_size = crop`, nonzero: Python treats 0 as no crop request) and
no real-size crop, the bottom-right pixel corner equals the floored top-left
pixel corner plus `(crop, crop)` in both components, and the returned crop
width and height both equal `crop`, for every geometry, pixel size, skew and
buffer. -/
theorem get_feature_roi_fixed_pixel_crop (bufferFn : Geom → ℚ → Geom) (geom : Geom)
    (px_size skew : ℚ × ℚ) (roi_buffer : Option ℚ) (crop : ℤ) (hc : crop ≠ 0)
    (r : RoiResult)
    (h : get_feature_roi bufferFn geom px_size skew roi_buffer (some crop) none =
      Except.ok r) :
    r.brPx = (r.tlPx.1 + crop, r.tlPx.2 + crop) ∧
    r.cropWidth = crop ∧ r.cropHeight = crop := by
  have ht : pyTruthyInt (some crop) = true := by simp [pyTruthyInt, hc]
  simp only [get_feature_roi, ht, Option.isSome_some, Option.isSome_none, Bool.and_false,
    Bool.false_eq_true, if_false, Bool.true_or, if_true, get_feature_bbox, pyTruthyList,
    List.isEmpty, Bool.not_false, List.length, Option.getD, List.getD, bne_self_eq_false,
    Bool.and_eq_true, and_false] at h
  split at h
  · exact absurd h (by simp)
  · rw [Except.ok.injEq] at h
    subst h
    exact ⟨rfl, rfl, rfl⟩

/-- Witness for C1 at a concrete instance: zero geometry, pixel size `(1, -1)`,
no skew, crop size 64. -/
theorem get_feature_roi_fixed_pixel_crop_witness :
    demoRoiFixed.brPx = (demoRoiFixed.tlPx.1 + 64, demoRoiFixed.tlPx.2 + 64) ∧
    demoRoiFixed.cropWidth = 64 ∧ demoRoiFixed.cropHeight = 64 :=
  get_feature_roi_fixed_pixel_crop (fun g _ => g) (Geom.mk 0 0 0 0 0 0) (1, -1) (0, 0)
    none 64 (by norm_num) demoRoiFixed (by
      norm_num [get_feature_roi, get_feature_bbox, get_pxcoord, get_geocoord,
        GeoTransform.det, pyTruthyInt, pyTruthyRat, pyTruthyList, demoRoiFixed,
        Prod.ext_iff, Int.ceil_neg, Int.ceil_ofNat, Int.floor_neg])

/-- C7: whenever `get_feature_roi` is called without a fixed pixel crop size
(`crop_img_size = None`) and returns a result, the returned crop width and
height are both at least 1, for every geometry (including zero-area, degenerate
ones), pixel size, skew, buffer and real-size crop: widths are clamped with
`max(..., 1)`, never zero or negative, and a degenerate crop is not rejected. -/
theorem get_feature_roi_min_crop_clamp (bufferFn : Geom → ℚ → Geom) (geom : Geom)
    (px_size skew : ℚ × ℚ) (roi_buffer : Option ℚ) (crop_real_size : Option ℚ)
    (r : RoiResult)
    (h : get_feature_roi bufferFn geom px_size skew roi_buffer none crop_real_size =
      Except.ok r) :
    1 ≤ r.cropWidth ∧ 1 ≤ r.cropHeight := by
  simp only [get_feature_roi, pyTruthyInt, Option.isSome_none, Bool.false_and,
    Bool.false_eq_true, if_false, Bool.false_or] at h
  split at h
  · exact absurd h (by simp)
  · split at h
    · exact absurd h (by simp)
    · split at h
      · exact absurd h (by simp)
      · rename_i brPx2 cw2 ch2 heq2
        rw [Except.ok.injEq] at h
        subst h
        split at heq2
        · exact absurd heq2 (by simp)
        · rw [Except.ok.injEq, Prod.mk.injEq] at heq2
          obtain ⟨hA, hB⟩ := heq2
          rw [Prod.mk.injEq] at hB
          obtain ⟨hB1, hB2⟩ := hB
          constructor
          · show (1 : ℤ) ≤ cw2
            rw [← hB1]
            exact le_max_right _ 1
          · show (1 : ℤ) ≤ ch2
            rw [← hB2]
            exact le_max_right _ 1

/-- C5 (evidence for the code bug): the band validation of `parse_rasters`
accepts the band data-type list `[0, 3]` (first band GDT_Unknown = 0, second
band type 3) without the mixed-band-type error, even though the bands do not
share one data type, because `if not raster_datatype` re-initialises the
reference type when it is the falsy GDAL code 0; a raster whose bands all
share one data type always passes the validation. -/
theorem parse_rasters_band_types_unknown_slip :
    parse_rasters_band_types [0, 3] = Except.ok (some 3) ∧ (0 : ℤ) ≠ 3 ∧
    (∀ (t : ℤ) (n : ℕ),
      parse_rasters_band_types (List.replicate (n + 1) t) = Except.ok (some t)) := by
  refine ⟨rfl, by decide, ?_⟩
  intro t n
  have hrd : (if pyTruthyInt (some t) = true then some t else some t) = some t := by
    split <;> rfl
  have key : ∀ (k : ℕ), bandTypeFold (some t) (List.replicate k t) = Except.ok (some t) := by
    intro k
    induction k with
    | zero => rfl
    | succ m ih =>
      rw [List.replicate_succ]
      simp only [bandTypeFold, hrd]
      simpa using ih
  simp only [parse_rasters_band_types, List.replicate_succ, bandTypeFold, pyTruthyInt]
  simpa using key n

/-- C6: for every CRS descriptor whose (uppercased) `type` is absent or not
one of the recognized kinds (EPSG, EPSGA, ERM, ESRI, USGS, PCI, or the NAME
special case with a single string property containing the `:EPSG:` token),
`parse_coordinate_system` fails with an error rather than returning a default;
a descriptor of type EPSG whose importer reports success (as with code 4326)
succeeds, and a descriptor of type BOGUS fails with the
could-not-identify-CRS assertion error. -/
theorem parse_coordinate_system_strict :
    (∀ (imp : CrsImporters) (body : CrsBody), ¬crsRecognized body →
      ∃ e, parse_coordinate_system imp body = Except.error e) ∧
    (∀ (imp : CrsImporters) (props : List CrsVal), imp.fromEPSG props = 0 →
      parse_coordinate_system imp (CrsBody.mk (some "EPSG") props) = Except.ok ()) ∧
    (∀ (imp : CrsImporters) (props : List CrsVal),
      parse_coordinate_system imp (CrsBody.mk (some "BOGUS") props) =
        Except.error "could not identify CRS/SRS type") := by
  refine ⟨?_, ?_, ?_⟩
  · intro imp body hnr
    simp only [crsRecognized, not_or] at hnr
    obtain ⟨h1, h2, h3, h4, h5, h6, h7⟩ := hnr
    simp only [parse_coordinate_system, crsImportErr]
    rw [if_neg h1, if_neg h2, if_neg h3, if_neg h4, if_neg h5, if_neg h6]
    by_cases hn : crsTypeOf body = "NAME"
    · rw [if_pos hn]
      rcases hbp : body.props with _ | ⟨v, rest⟩
      · exact ⟨"could not identify CRS/SRS type", rfl⟩
      · rcases v with n | s
        · rcases rest with _ | ⟨v2, rest2⟩
          · exact ⟨"TypeError: argument of type int is not iterable", rfl⟩
          · exact ⟨"could not identify CRS/SRS type", rfl⟩
        · rcases rest with _ | ⟨v2, rest2⟩
          · have hcon : containsSeq [':', 'E', 'P', 'S', 'G', ':'] s.data = false := by
              cases hc : containsSeq [':', 'E', 'P', 'S', 'G', ':'] s.data
              · rfl
              · exact absurd ⟨hn, s, hbp, hc⟩ h7
            exact ⟨"could not identify CRS/SRS type", by simp [hcon]⟩
          · exact ⟨"could not identify CRS/SRS type", rfl⟩
    · rw [if_neg hn]
      exact ⟨"could not identify CRS/SRS type", rfl⟩
  · intro imp props h0
    have ht : crsTypeOf (CrsBody.mk (some "EPSG") props) = "EPSG" := by
      show pyUpper "EPSG" = "EPSG"
      decide
    simp [parse_coordinate_system, crsImportErr, ht, h0]
  · intro imp props
    have ht : crsTypeOf (CrsBody.mk (some "BOGUS") props) = "BOGUS" := by
      show pyUpper "BOGUS" = "BOGUS"
      decide
    simp [parse_coordinate_system, crsImportErr, ht]

/-- Witness for C6 with concrete importers: the descriptor
`(type EPSG, properties [4326])` succeeds and `(type BOGUS, ...)` fails. -/
theorem parse_coordinate_system_strict_witness :
    (∃ e, parse_coordinate_system demoImporters
        (CrsBody.mk (some "BOGUS") [CrsVal.int 4326]) = Except.error e) ∧
    parse_coordinate_system demoImporters
        (CrsBody.mk (some "EPSG") [CrsVal.int 4326]) = Except.ok () :=
  ⟨parse_coordinate_system_strict.1 demoImporters (CrsBody.mk (some "BOGUS") [CrsVal.int 4326])
    (by
      intro hr
      rcases hr with h | h | h | h | h | h | ⟨h, -⟩ <;> exact absurd h (by decide)),
   parse_coordinate_system_strict.2.1 demoImporters [CrsVal.int 4326] (by decide)⟩

/-- Witness for C7 at a concrete zero-area geometry (a point at `(5, 5)`). -/
theorem get_feature_roi_min_crop_clamp_witness :
    1 ≤ demoRoiClamp.cropWidth ∧ 1 ≤ demoRoiClamp.cropHeight :=
  get_feature_roi_min_crop_clamp (fun g _ => g) (Geom.mk 5 5 5 5 5 5) (1, -1) (0, 0)
    none none demoRoiClamp (by
      norm_num [get_feature_roi, get_feature_bbox, get_pxcoord, get_geocoord,
        GeoTransform.det, pyTruthyInt, pyTruthyRat, pyTruthyList, demoRoiClamp,
        Prod.ext_iff, Int.ceil_neg, Int.ceil_ofNat, Int.floor_neg])

/-- Helper: a successful `processAll` run has one output entry per input
feature, obtained by `processFeature` in order. -/
theorem processAll_get {G : Type} (ops : GeomOps G) (tr : Option (G → G)) (roi : Option G)
    (allow clip : Bool) :
    ∀ (fs : List (Feature G)) (flagged : List (Feature G × Bool)),
      processAll ops tr roi allow clip fs = Except.ok flagged →
      flagged.length = fs.length ∧
      ∀ i (hf : i < fs.length) (hg : i < flagged.length),
        processFeature ops tr roi allow clip (fs.get ⟨i, hf⟩) =
          Except.ok (flagged.get ⟨i, hg⟩) := by
  intro fs
  induction fs with
  | nil =>
    intro flagged h
    simp only [processAll, Except.ok.injEq] at h
    subst h
    exact ⟨rfl, fun i hf hg => absurd hf (by simp)⟩
  | cons f fs ih =>
    intro flagged h
    simp only [processAll] at h
    rcases hpf : processFeature ops tr roi allow clip f with e | r
    · simp only [hpf] at h
      exact Except.noConfusion h
    · simp only [hpf] at h
      rcases hpa : processAll ops tr roi allow clip fs with e | rs
      · simp only [hpa] at h
        exact Except.noConfusion h
      · simp only [hpa, Except.ok.injEq] at h
        subst h
        obtain ⟨hlen, hget⟩ := ih rs hpa
        refine ⟨by simp [hlen], ?_⟩
        intro i hf hg
        cases i with
        | zero => exact hpf
        | succ j =>
          exact hget j (Nat.lt_of_succ_lt_succ hf) (Nat.lt_of_succ_lt_succ hg)

/-- Helper: a successful `parseFeature` replaces the feature's geometry with
the parsed object and overwrites its type with the raw geometry's type
string. -/
theorem parseFeature_spec {G : Type} (ops : GeomOps G) (tr : Option (G → G))
    (f f2 : Feature G) (g : G) (h : parseFeature ops tr f = Except.ok (f2, g)) :
    f2.geometry = GeomVal.obj g ∧
    ∃ rg, f.geometry = GeomVal.raw rg ∧ f2.type = some (RawGeom.typeStr rg) := by
  rcases f with ⟨geo, ty⟩
  rcases geo with rg | g0
  · rcases rg with coords | coords | t
    · simp only [parseFeature] at h
      split at h
      · split at h
        · rw [Except.ok.injEq, Prod.mk.injEq] at h
          obtain ⟨hf2, hg⟩ := h
          subst hf2
          subst hg
          exact ⟨rfl, RawGeom.polygon coords, rfl, rfl⟩
        · exact Except.noConfusion h
      · exact Except.noConfusion h
    · simp only [parseFeature] at h
      split at h
      · rw [Except.ok.injEq, Prod.mk.injEq] at h
        obtain ⟨hf2, hg⟩ := h
        subst hf2
        subst hg
        exact ⟨rfl, RawGeom.multiPolygon coords, rfl, rfl⟩
      · exact Except.noConfusion h
    · exact Except.noConfusion h
  · exact Except.noConfusion h

/-- Helper: one loop iteration of `parse_geojson` first parses/reprojects the
feature; the keep flag is decided by `keepPred` on the parsed geometry when an
ROI is given (always true without an ROI); a dropped feature keeps exactly the
parsed state; the post-state geometry is always a parsed object. -/
theorem processFeature_spec {G : Type} (ops : GeomOps G) (tr : Option (G → G))
    (roi : Option G) (allow clip : Bool) (f pf : Feature G) (b : Bool)
    (h : processFeature ops tr roi allow clip f = Except.ok (pf, b)) :
    ∃ f2 g, parseFeature ops tr f = Except.ok (f2, g) ∧
      (∃ g2, pf.geometry = GeomVal.obj g2) ∧
      (b = false → pf = f2) ∧
      (roi = none → b = true) ∧
      (∀ R, roi = some R → b = keepPred ops R allow g) := by
  simp only [processFeature] at h
  rcases hpf : parseFeature ops tr f with e | fg
  · simp only [hpf] at h
    exact Except.noConfusion h
  · obtain ⟨f2, g⟩ := fg
    simp only [hpf] at h
    have hobj : f2.geometry = GeomVal.obj g := (parseFeature_spec ops tr f f2 g hpf).1
    refine ⟨f2, g, rfl, ?_⟩
    split at h
    · rw [Except.ok.injEq, Prod.mk.injEq] at h
      obtain ⟨hpf2, hb⟩ := h
      subst hpf2
      subst hb
      exact ⟨⟨g, hobj⟩, fun habs => absurd habs (by simp), fun _ => rfl,
        fun R hR => Option.noConfusion hR⟩
    · rename_i R
      split at h
      · rename_i hk
        split at h
        · split at h
          · rw [Except.ok.injEq, Prod.mk.injEq] at h
            obtain ⟨hpf2, hb⟩ := h
            subst hpf2
            subst hb
            refine ⟨⟨ops.intersection R g, rfl⟩, fun habs => absurd habs (by simp),
              fun hnone => Option.noConfusion hnone, ?_⟩
            intro R2 hR2
            rw [Option.some.injEq] at hR2
            subst hR2
            exact hk.symm
          · exact Except.noConfusion h
        · rw [Except.ok.injEq, Prod.mk.injEq] at h
          obtain ⟨hpf2, hb⟩ := h
          subst hpf2
          subst hb
          refine ⟨⟨g, hobj⟩, fun habs => absurd habs (by simp),
            fun hnone => Option.noConfusion hnone, ?_⟩
          intro R2 hR2
          rw [Option.some.injEq] at hR2
          subst hR2
          exact hk.symm
      · rename_i hk
        rw [Except.ok.injEq, Prod.mk.injEq] at h
        obtain ⟨hpf2, hb⟩ := h
        subst hpf2
        subst hb
        refine ⟨⟨g, hobj⟩, fun _ => rfl,
          fun hnone => Option.noConfusion hnone, ?_⟩
        intro R2 hR2
        rw [Option.some.injEq] at hR2
        subst hR2
        exact ((Bool.not_eq_true _).mp hk).symm

/-- C4: when `parse_geojson` is called with a non-None ROI and succeeds, its
kept list consists exactly of the processed features whose keep flag is true,
and for every input feature that flag is true if and only if either
`allow_outlying` is true and the ROI intersects the feature's parsed
(reprojected) geometry, or `allow_outlying` is false and the ROI contains it. -/
theorem parse_geojson_roi_keep_iff {G : Type} (ops : GeomOps G) (tr : Option (G → G))
    (roi : Option G) (allow clip : Bool) (fs post kept : _)
    (h : parse_geojson ops tr roi allow clip fs = Except.ok (post, kept)) :
    ∃ flagged, processAll ops tr roi allow clip fs = Except.ok flagged ∧
      post = flagged.map Prod.fst ∧
      kept = (flagged.filter (fun x => x.2)).map Prod.fst ∧
      flagged.length = fs.length ∧
      ∀ (R : G), roi = some R →
        ∀ i (hf : i < fs.length) (hg : i < flagged.length),
          ∃ f2 g, parseFeature ops tr (fs.get ⟨i, hf⟩) = Except.ok (f2, g) ∧
            ((flagged.get ⟨i, hg⟩).2 = true ↔
              ((allow = true ∧ ops.intersects R g = true) ∨
               (allow = false ∧ ops.contains R g = true))) := by
  simp only [parse_geojson] at h
  rcases hpa : processAll ops tr roi allow clip fs with e | flagged
  · simp only [hpa] at h
    exact Except.noConfusion h
  · simp only [hpa, Except.ok.injEq, Prod.mk.injEq] at h
    obtain ⟨hpost, hkept⟩ := h
    obtain ⟨hlen, hget⟩ := processAll_get ops tr roi allow clip fs flagged hpa
    refine ⟨flagged, rfl, hpost.symm, hkept.symm, hlen, ?_⟩
    intro R hR i hf hg
    obtain ⟨f2, g, hpf, -, -, -, hflag⟩ :=
      processFeature_spec ops tr roi allow clip (fs.get ⟨i, hf⟩)
        (flagged.get ⟨i, hg⟩).1 (flagged.get ⟨i, hg⟩).2 (by
          rw [← hget i hf hg])
    refine ⟨f2, g, hpf, ?_⟩
    rw [hflag R hR]
    simp [keepPred, Bool.and_eq_true, Bool.or_eq_true, Bool.not_eq_true']

/-- Witness for C4: a single straddling feature (ROI intersects but does not
contain it) with `allow_outlying = true`, `clip_outlying = false` is kept. -/
theorem parse_geojson_roi_keep_iff_witness :
    ∃ flagged, processAll demoOpsStraddle none (some ()) true false [demoFeature] =
        Except.ok flagged ∧
      [demoParsedFeature] = flagged.map Prod.fst ∧
      [demoParsedFeature] = (flagged.filter (fun x => x.2)).map Prod.fst ∧
      flagged.length = [demoFeature].length ∧
      ∀ (R : Unit), (some () : Option Unit) = some R →
        ∀ i (hf : i < [demoFeature].length) (hg : i < flagged.length),
          ∃ f2 g, parseFeature demoOpsStraddle none ([demoFeature].get ⟨i, hf⟩) =
              Except.ok (f2, g) ∧
            ((flagged.get ⟨i, hg⟩).2 = true ↔
              ((true = true ∧ demoOpsStraddle.intersects R g = true) ∨
               (true = false ∧ demoOpsStraddle.contains R g = true))) :=
  parse_geojson_roi_keep_iff demoOpsStraddle none (some ()) true false [demoFeature]
    [demoParsedFeature] [demoParsedFeature] rfl

/-- C10: `parse_geojson` mutates its input collection in place: on success,
the post-state list has one entry per input feature; every feature's raw
geometry dict (necessarily of type Polygon or MultiPolygon, or the call would
have failed) is replaced by the parsed (possibly reprojected) geometry object
with its `type` entry overwritten with the geometry type; a feature filtered
out by the ROI test (keep flag false, hence absent from the returned kept
list) is left exactly in that parsed state. -/
theorem parse_geojson_mutates_in_place {G : Type} (ops : GeomOps G) (tr : Option (G → G))
    (roi : Option G) (allow clip : Bool) (fs post kept : _)
    (h : parse_geojson ops tr roi allow clip fs = Except.ok (post, kept)) :
    ∃ flagged, processAll ops tr roi allow clip fs = Except.ok flagged ∧
      post = flagged.map Prod.fst ∧
      kept = (flagged.filter (fun x => x.2)).map Prod.fst ∧
      flagged.length = fs.length ∧
      ∀ i (hf : i < fs.length) (hg : i < flagged.length),
        ∃ f2 g rg, parseFeature ops tr (fs.get ⟨i, hf⟩) = Except.ok (f2, g) ∧
          (fs.get ⟨i, hf⟩).geometry = GeomVal.raw rg ∧
          f2.geometry = GeomVal.obj g ∧
          f2.type = some (RawGeom.typeStr rg) ∧
          (∃ g2, (flagged.get ⟨i, hg⟩).1.geometry = GeomVal.obj g2) ∧
          ((flagged.get ⟨i, hg⟩).2 = false → (flagged.get ⟨i, hg⟩).1 = f2) := by
  simp only [parse_geojson] at h
  rcases hpa : processAll ops tr roi allow clip fs with e | flagged
  · simp only [hpa] at h
    exact Except.noConfusion h
  · simp only [hpa, Except.ok.injEq, Prod.mk.injEq] at h
    obtain ⟨hpost, hkept⟩ := h
    obtain ⟨hlen, hget⟩ := processAll_get ops tr roi allow clip fs flagged hpa
    refine ⟨flagged, rfl, hpost.symm, hkept.symm, hlen, ?_⟩
    intro i hf hg
    obtain ⟨f2, g, hpf, hobj2, hdrop, -, -⟩ :=
      processFeature_spec ops tr roi allow clip (fs.get ⟨i, hf⟩)
        (flagged.get ⟨i, hg⟩).1 (flagged.get ⟨i, hg⟩).2 (by
          rw [← hget i hf hg])
    obtain ⟨hobj, rg, hraw, hty⟩ := parseFeature_spec ops tr (fs.get ⟨i, hf⟩) f2 g hpf
    exact ⟨f2, g, rg, hpf, hraw, hobj, hty, hobj2, hdrop⟩

/-- Witness for C10: a single feature entirely outside the ROI is dropped from
the kept list, yet its post-state geometry is the parsed object with the type
overwritten. -/
theorem parse_geojson_mutates_in_place_witness :
    ∃ flagged, processAll demoOpsOutside none (some ()) true false [demoFeature] =
        Except.ok flagged ∧
      [demoParsedFeature] = flagged.map Prod.fst ∧
      ([] : List (Feature Unit)) = (flagged.filter (fun x => x.2)).map Prod.fst ∧
      flagged.length = [demoFeature].length ∧
      ∀ i (hf : i < [demoFeature].length) (hg : i < flagged.length),
        ∃ f2 g rg, parseFeature demoOpsOutside none ([demoFeature].get ⟨i, hf⟩) =
            Except.ok (f2, g) ∧
          ([demoFeature].get ⟨i, hf⟩).geometry = GeomVal.raw rg ∧
          f2.geometry = GeomVal.obj g ∧
          f2.type = some (RawGeom.typeStr rg) ∧
          (∃ g2, (flagged.get ⟨i, hg⟩).1.geometry = GeomVal.obj g2) ∧
          ((flagged.get ⟨i, hg⟩).2 = false → (flagged.get ⟨i, hg⟩).1 = f2) :=
  parse_geojson_mutates_in_place demoOpsOutside none (some ()) true false [demoFeature]
    [demoParsedFeature] [] rfl

end ThelperGeo
